import Mathlib

/-!
# Verification of the request-data resolution layer of `rotkehlchen/api/v1/resources.py`

This file gives a shallow embedding of the composite location loaders
(`_combine_data_and_view_args`, `load_json_viewargs_data`, `load_json_query_data`,
`load_json_query_viewargs_data`) together with a model of the surrounding
location readers, validator and dispatcher (which live outside the provided
sources and are modelled from the specification), and proves properties about
the merge/precedence behaviour.

Python mappings (dicts and webargs `MultiDictProxy` objects) are embedded as
association lists with unique keys; the webargs `missing` sentinel is embedded
as `Option.none`.
-/

namespace Rotki

/-- Raw values as they arrive from a request location: JSON scalars from the
body, strings from the query string or the path segments. -/
inductive RawValue where
  | str (s : String)
  | int (n : Int)
  | bool (b : Bool)
  | null
deriving DecidableEq

/-- A `PartialPayload` / `MergedPayload`: a field-name → raw-value mapping,
embedded as an association list (Python dicts have unique keys; lookups find
the first matching pair). -/
abbrev Payload := List (String × RawValue)

/-- Dictionary lookup: the value bound to key `k`, if any. -/
def Payload.get : Payload → String → Option RawValue
  | [], _ => none
  | (k₀, v₀) :: rest, k => if k₀ = k then some v₀ else Payload.get rest k

/-- Dictionary key set (as a list). -/
def Payload.keys (p : Payload) : List String := p.map Prod.fst

/-- The embedding of the Python dict assignment `all_data[key] = value`:
overwrite the binding of `k` if present, otherwise append it. -/
def Payload.setKey : Payload → String → RawValue → Payload
  | [], k, v => [(k, v)]
  | (k₀, v₀) :: rest, k, v =>
      if k₀ = k then (k, v) :: rest else (k₀, v₀) :: Payload.setKey rest k v

/-- The embedding of the loop `for key, value in view_args.items():
all_data[key] = value` in `_combine_data_and_view_args`. -/
def Payload.updateAll (data va : Payload) : Payload :=
  va.foldl (fun acc kv => Payload.setKey acc kv.1 kv.2) data

/-- A schema field as described by the spec (§3 SchemaDescriptor): name, target
type, required flag, optional default.  The concrete marshmallow schemas live
in `rotkehlchen/api/v1/encoding.py`, outside the provided sources, so field
descriptors are kept abstract and instantiated per claim. -/
inductive FieldType where
  | intType
  | boolType
  | strType
  | enumType (values : List String)
deriving DecidableEq

/-- A typed domain value produced by validation. -/
inductive TypedValue where
  | int (n : Int)
  | bool (b : Bool)
  | str (s : String)
  | enum (s : String)
deriving DecidableEq

structure FieldSpec where
  name : String
  ftype : FieldType
  required : Bool
  dflt : Option TypedValue
deriving DecidableEq

/-- A SchemaDescriptor: ordered list of field specs. -/
abbrev SchemaDescriptor := List FieldSpec

/-- The embedding of a `RawRequest` (spec §3): the three independent raw
sources.  `none` embeds the webargs `missing` sentinel: a body that is empty
or not JSON-object-shaped, a query reader with nothing to contribute, absent
view args. -/
structure RawRequest where
  body : Option Payload
  query : Option Payload
  view_args : Option Payload
deriving DecidableEq

/-- Embedding of `_combine_data_and_view_args(data, view_args, schema)`
(resources.py lines 105–118): if `view_args` is not missing, replace an empty
`data` mapping by `view_args` wholesale, otherwise overwrite/add each
`view_args` pair into `data`.  The `schema` argument only parametrises the
`MultiDictProxy` wrapper in the source and does not affect the mapping. -/
def combine_data_and_view_args (data : Payload) (view_args : Option Payload)
    (_schema : SchemaDescriptor) : Payload :=
  match view_args with
  | none => data
  | some va =>
      if data = [] then va
      else Payload.updateAll data va

/-- Embedding of `load_json_viewargs_data` (resources.py lines 121–130):
load view args and json; if the json data is missing, return missing;
otherwise combine the json data with the view args. -/
def load_json_viewargs_data (r : RawRequest) (schema : SchemaDescriptor) :
    Option Payload :=
  let view_args := r.view_args
  match r.body with
  | none => none
  | some data => some (combine_data_and_view_args data view_args schema)

/-- Embedding of `load_json_query_data` (resources.py lines 133–139):
return the json data when it is not missing, else the querystring data. -/
def load_json_query_data (r : RawRequest) (_schema : SchemaDescriptor) :
    Option Payload :=
  match r.body with
  | some data => some data
  | none => r.query

/-- Embedding of `load_json_query_viewargs_data` (resources.py lines 142–155):
take json data, falling back to the querystring when the json is missing;
if still missing return missing, else combine with the view args. -/
def load_json_query_viewargs_data (r : RawRequest) (schema : SchemaDescriptor) :
    Option Payload :=
  let view_args := r.view_args
  let data : Option Payload :=
    match r.body with
    | some d => some d
    | none => r.query
  match data with
  | none => none
  | some d => some (combine_data_and_view_args d view_args schema)

/-- Lookup in the payload a loader produced, `none` when the loader returned
the missing sentinel or the field is absent. -/
def loadedGet (o : Option Payload) (k : String) : Option RawValue :=
  o.bind (fun p => Payload.get p k)

/-! ## Validator and dispatcher, modelled from the spec

The marshmallow schemas and the webargs parsing pipeline live in
`rotkehlchen/api/v1/encoding.py`, `rotkehlchen/api/v1/parser.py` and the
webargs library, outside the provided sources; they are modelled from the
specification (§4.3, §4.5). -/

/-- ASCII upper-casing of one character (kernel-reducible replacement for
`Char.toUpper`). -/
def upperChar (c : Char) : Char :=
  if 97 ≤ c.toNat ∧ c.toNat ≤ 122 then Char.ofNat (c.toNat - 32) else c

/-- ASCII lower-casing of one character. -/
def lowerChar (c : Char) : Char :=
  if 65 ≤ c.toNat ∧ c.toNat ≤ 90 then Char.ofNat (c.toNat + 32) else c

/-- ASCII upper-casing of a string. -/
def upperString (s : String) : String := String.mk (s.data.map upperChar)

/-- ASCII lower-casing of a string. -/
def lowerString (s : String) : String := String.mk (s.data.map lowerChar)

/-- The numeric value of a decimal digit character, if it is one. -/
def charDigit (c : Char) : Option Nat :=
  if 48 ≤ c.toNat ∧ c.toNat ≤ 57 then some (c.toNat - 48) else none

/-- Accumulating decimal parse of a digit list. -/
def parseNatDigits : List Char → Nat → Option Nat
  | [], acc => some acc
  | c :: cs, acc =>
      match charDigit c with
      | none => none
      | some d => parseNatDigits cs (acc * 10 + d)

/-- Decimal integer parse of a string, with optional leading minus sign
(kernel-reducible replacement for `String.toInt?`). -/
def parseIntString (s : String) : Option Int :=
  match s.data with
  | [] => none
  | c :: cs =>
      if c = Char.ofNat 45 then
        match cs with
        | [] => none
        | _ => (parseNatDigits cs 0).map (fun n => -(n : Int))
      else (parseNatDigits s.data 0).map (fun n => (n : Int))

/-- Modelled from the spec: coercion of a raw value to a field's declared type
(§4.3).  Integers accept integer raw values and decimal strings; booleans
accept a canonical set of truthy/falsy string tokens case-insensitively;
enums accept their member names case-insensitively; strings accept strings. -/
def coerceValue : FieldType → RawValue → Option TypedValue
  | .intType, .int n => some (.int n)
  | .intType, .str s => (parseIntString s).map TypedValue.int
  | .intType, _ => none
  | .boolType, .bool b => some (.bool b)
  | .boolType, .str s =>
      let l := lowerString s
      if l = "true" ∨ l = "1" ∨ l = "yes" then some (.bool true)
      else if l = "false" ∨ l = "0" ∨ l = "no" then some (.bool false)
      else none
  | .boolType, _ => none
  | .strType, .str s => some (.str s)
  | .strType, _ => none
  | .enumType values, .str s =>
      let u := upperString s
      if values.contains u then some (.enum u) else none
  | .enumType _, _ => none

instance {ε α : Type} [DecidableEq ε] [DecidableEq α] :
    DecidableEq (Except ε α) := fun a b =>
  match a, b with
  | .error x, .error y =>
      if h : x = y then isTrue (by rw [h])
      else isFalse (fun hh => h (Except.error.inj hh))
  | .ok x, .ok y =>
      if h : x = y then isTrue (by rw [h])
      else isFalse (fun hh => h (Except.ok.inj hh))
  | .error _, .ok _ => isFalse (fun hh => Except.noConfusion hh)
  | .ok _, .error _ => isFalse (fun hh => Except.noConfusion hh)

/-- Modelled from the spec: per-field validation outcome — a typed pair when
the field is present and coercible, the default when an optional field is
absent, an error naming the field when a required field is absent or coercion
fails, nothing when an optional field without a default is absent. -/
def checkField (p : Payload) (f : FieldSpec) :
    Except String (Option (String × TypedValue)) :=
  match Payload.get p f.name with
  | some raw =>
      match coerceValue f.ftype raw with
      | some tv => .ok (some (f.name, tv))
      | none => .error f.name
  | none =>
      if f.required then .error f.name
      else
        match f.dflt with
        | some tv => .ok (some (f.name, tv))
        | none => .ok none

def errOf : Except String (Option (String × TypedValue)) → Option String
  | .error n => some n
  | .ok _ => none

def okPair : Except String (Option (String × TypedValue)) → Option (String × TypedValue)
  | .error _ => none
  | .ok o => o

/-- A validation failure carrying the offending field names (spec §4.3: the
error carries "the offending field name(s)"). -/
structure ValidationError where
  fields : List String
deriving DecidableEq

/-- Modelled from the spec: the names of all offending fields of a merged
payload — unrecognized payload keys, then per-field failures in schema
order. -/
def validationErrors (sch : SchemaDescriptor) (p : Payload) : List String :=
  (Payload.keys p).filter (fun k => !(sch.any (fun f => f.name == k)))
    ++ (sch.map (checkField p)).filterMap errOf

/-- Modelled from the spec: `validate(MergedPayload, SchemaDescriptor) ->
ValidatedArguments` (§4.3), failing with a ValidationError that carries the
offending field names when any field is missing, malformed or unrecognized. -/
def validate (sch : SchemaDescriptor) (p : Payload) :
    Except ValidationError (List (String × TypedValue)) :=
  match validationErrors sch p with
  | [] => .ok ((sch.map (checkField p)).filterMap okPair)
  | e :: es => .error ⟨e :: es⟩

/-- Modelled from the spec: the Endpoint Dispatcher (§4.5) — run the bound
composite loader (a missing location result contributes the empty mapping),
then the Validator, then on success the handler; a validation failure is
surfaced and the handler is not invoked. -/
def runEndpoint {α : Type} (loader : RawRequest → SchemaDescriptor → Option Payload)
    (sch : SchemaDescriptor) (handler : List (String × TypedValue) → α)
    (r : RawRequest) : Except ValidationError α :=
  (validate sch ((loader r sch).getD [])).map handler

/-! ## The blockchain-accounts resource and its schema factories

`BlockchainsAccountsResource.make_put_schema` / `make_patch_schema` /
`make_delete_schema` are in the provided sources (resources.py lines
756–769); the `resource_parser.use_kwargs` dispatch machinery that calls
them is in `rotkehlchen/api/v1/parser.py`, outside the provided sources, and
is modelled from the spec (§4.4, §4.5). -/

/-- The ethereum connector handle held by the chain manager; its identity is
all the claims need. -/
structure EthereumManager where
  connectorId : Nat
deriving DecidableEq

structure ChainManager where
  ethereum : EthereumManager
deriving DecidableEq

structure Rotkehlchen where
  chain_manager : ChainManager
deriving DecidableEq

/-- The rest_api object a resource holds (`self.rest_api`). -/
structure RestAPI where
  rotkehlchen : Rotkehlchen
deriving DecidableEq

/-- `BlockchainAccountsPutSchema(ethereum)`: a schema closing over the
ethereum connector it was built with. -/
structure BlockchainAccountsPutSchema where
  ethereum : EthereumManager
deriving DecidableEq

structure BlockchainAccountsPatchSchema where
  ethereum : EthereumManager
deriving DecidableEq

structure BlockchainAccountsDeleteSchema where
  ethereum : EthereumManager
deriving DecidableEq

/-- Embedding of `BlockchainsAccountsResource.make_put_schema`: build the put
schema from the chain manager's ethereum connector of the live rest_api. -/
def make_put_schema (api : RestAPI) : BlockchainAccountsPutSchema :=
  ⟨api.rotkehlchen.chain_manager.ethereum⟩

/-- Embedding of `BlockchainsAccountsResource.make_patch_schema`. -/
def make_patch_schema (api : RestAPI) : BlockchainAccountsPatchSchema :=
  ⟨api.rotkehlchen.chain_manager.ethereum⟩

/-- Embedding of `BlockchainsAccountsResource.make_delete_schema`. -/
def make_delete_schema (api : RestAPI) : BlockchainAccountsDeleteSchema :=
  ⟨api.rotkehlchen.chain_manager.ethereum⟩

/-- Observable events of one dispatch, in order. -/
inductive DispatchEvent where
  | factoryInvoked (dep : EthereumManager)
  | loaderRan
  | validatorRan
  | handlerRan
deriving DecidableEq

def isFactoryInvocation : DispatchEvent → Bool
  | .factoryInvoked _ => true
  | _ => false

/-- Modelled from the spec: `resource_parser.use_kwargs(factory, location)`
(the ResourceReadingParser of `rotkehlchen/api/v1/parser.py`, not among the
provided sources).  Per §4.4/§4.5 it resolves the schema by calling the bound
factory once per incoming request with the live rest_api state, immediately
before running the composite loader; then it validates the merged payload and,
on success only, invokes the handler.  The returned trace records the order of
these steps. -/
def use_kwargs_with_factory {σ α : Type} (factory : RestAPI → σ)
    (dep : σ → EthereumManager) (fields : σ → SchemaDescriptor)
    (loader : RawRequest → SchemaDescriptor → Option Payload)
    (handler : List (String × TypedValue) → α) (api : RestAPI)
    (r : RawRequest) : List DispatchEvent × Except ValidationError α :=
  let schema := factory api
  let merged := (loader r (fields schema)).getD []
  match validate (fields schema) merged with
  | .error e =>
      ([.factoryInvoked (dep schema), .loaderRan, .validatorRan], .error e)
  | .ok args =>
      ([.factoryInvoked (dep schema), .loaderRan, .validatorRan, .handlerRan],
        .ok (handler args))

/-- The put dispatch of `BlockchainsAccountsResource`: factory
`make_put_schema`, location `json_and_view_args`. -/
def blockchain_accounts_put_dispatch {α : Type}
    (fields : BlockchainAccountsPutSchema → SchemaDescriptor)
    (handler : List (String × TypedValue) → α) (api : RestAPI)
    (r : RawRequest) : List DispatchEvent × Except ValidationError α :=
  use_kwargs_with_factory make_put_schema (fun s => s.ethereum) fields
    load_json_viewargs_data handler api r

/-- The patch dispatch of `BlockchainsAccountsResource`: factory
`make_patch_schema`, location `json_and_view_args`. -/
def blockchain_accounts_patch_dispatch {α : Type}
    (fields : BlockchainAccountsPatchSchema → SchemaDescriptor)
    (handler : List (String × TypedValue) → α) (api : RestAPI)
    (r : RawRequest) : List DispatchEvent × Except ValidationError α :=
  use_kwargs_with_factory make_patch_schema (fun s => s.ethereum) fields
    load_json_viewargs_data handler api r

/-- The delete dispatch of `BlockchainsAccountsResource`: factory
`make_delete_schema`, location `json_and_view_args`. -/
def blockchain_accounts_delete_dispatch {α : Type}
    (fields : BlockchainAccountsDeleteSchema → SchemaDescriptor)
    (handler : List (String × TypedValue) → α) (api : RestAPI)
    (r : RawRequest) : List DispatchEvent × Except ValidationError α :=
  use_kwargs_with_factory make_delete_schema (fun s => s.ethereum) fields
    load_json_viewargs_data handler api r

/-! ## Concrete fixtures -/

/-- The enum members of the Location field used by the spec's concrete
scenario. -/
def locationMembers : List String := ["BINANCE", "KRAKEN", "POLONIEX"]

/-- The schema of the spec's concrete scenario (§8): from_timestamp:int,
to_timestamp:int, location:enum, async_query:bool with default false. -/
def timerangeLocationSchema : SchemaDescriptor :=
  [⟨"from_timestamp", .intType, true, none⟩,
   ⟨"to_timestamp", .intType, true, none⟩,
   ⟨"location", .enumType locationMembers, true, none⟩,
   ⟨"async_query", .boolType, false, some (.bool false)⟩]

/-- The query-string mapping of the spec's concrete scenario:
`from_timestamp=0&to_timestamp=100&location=binance`. -/
def timerangeQuery : Payload :=
  [("from_timestamp", .str "0"), ("to_timestamp", .str "100"),
   ("location", .str "binance")]

/-- A request whose JSON body is the present empty object `{}` (not the
missing sentinel) alongside the scenario query string. -/
def emptyObjectBodyRequest : RawRequest := ⟨some [], some timerangeQuery, none⟩

/-- A request with an Absent body and bound path segments. -/
def absentBodyPathRequest : RawRequest :=
  ⟨none, none, some [("blockchain", .str "ETH")]⟩

/-- A body+query request in which field "a" appears in both sources with
different values. -/
def overlapBodyQueryRequest : RawRequest :=
  ⟨some [("a", .int 1)], some [("a", .int 2)], none⟩

/-- A body+query+path request with pairwise-disjoint non-empty field sets in
the three sources. -/
def disjointThreeSourceRequest : RawRequest :=
  ⟨some [("a", .int 1)], some [("b", .int 2)], some [("c", .int 3)]⟩

/-! ## Helper lemmas about the association-list dictionary operations -/

theorem Payload.get_setKey_self (p : Payload) (k : String) (v : RawValue) :
    Payload.get (Payload.setKey p k v) k = some v := by
  induction p with
  | nil => simp [Payload.setKey, Payload.get]
  | cons hd tl ih =>
      obtain ⟨k₀, v₀⟩ := hd
      by_cases h : k₀ = k
      · simp [Payload.setKey, h, Payload.get]
      · simp [Payload.setKey, h, Payload.get, ih]

theorem Payload.get_setKey_other (p : Payload) (k k' : String) (v : RawValue)
    (h : k ≠ k') : Payload.get (Payload.setKey p k v) k' = Payload.get p k' := by
  induction p with
  | nil => simp [Payload.setKey, Payload.get, h]
  | cons hd tl ih =>
      obtain ⟨k₀, v₀⟩ := hd
      by_cases h₀ : k₀ = k
      · subst h₀
        simp [Payload.setKey, Payload.get, h]
      · by_cases h₁ : k₀ = k'
        · have h₂ : ¬(k' = k) := fun hh => h hh.symm
          simp [Payload.setKey, h₀, h₁, h₂, Payload.get]
        · simp [Payload.setKey, h₀, Payload.get, h₁, ih]

theorem Payload.get_updateAll_of_get_none (va : Payload) (data : Payload)
    (k : String) (h : Payload.get va k = none) :
    Payload.get (Payload.updateAll data va) k = Payload.get data k := by
  induction va generalizing data with
  | nil => simp [Payload.updateAll]
  | cons hd tl ih =>
      obtain ⟨k₀, v₀⟩ := hd
      have hne : k₀ ≠ k := by
        intro hk
        simp [Payload.get, hk] at h
      have htl : Payload.get tl k = none := by
        simpa [Payload.get, hne] using h
      have : Payload.updateAll data ((k₀, v₀) :: tl)
          = Payload.updateAll (Payload.setKey data k₀ v₀) tl := rfl
      rw [this, ih _ htl, Payload.get_setKey_other _ _ _ _ hne]

theorem Payload.get_eq_none_of_not_mem_keys (p : Payload) (k : String)
    (h : k ∉ Payload.keys p) : Payload.get p k = none := by
  induction p with
  | nil => rfl
  | cons hd tl ih =>
      obtain ⟨k₀, v₀⟩ := hd
      have h₀ : k₀ ≠ k := by
        intro hk
        exact h (by simp [Payload.keys, hk])
      have htl : k ∉ Payload.keys tl := by
        intro hk
        exact h (by simp [Payload.keys] at hk ⊢; exact Or.inr hk)
      simp [Payload.get, h₀, ih htl]

theorem Payload.get_updateAll_of_get (va : Payload) (data : Payload)
    (k : String) (v : RawValue) (hnd : (Payload.keys va).Nodup)
    (h : Payload.get va k = some v) :
    Payload.get (Payload.updateAll data va) k = some v := by
  induction va generalizing data with
  | nil => simp [Payload.get] at h
  | cons hd tl ih =>
      obtain ⟨k₀, v₀⟩ := hd
      have hstep : Payload.updateAll data ((k₀, v₀) :: tl)
          = Payload.updateAll (Payload.setKey data k₀ v₀) tl := rfl
      have hkeys : Payload.keys ((k₀, v₀) :: tl) = k₀ :: Payload.keys tl := rfl
      rw [hkeys] at hnd
      have hnd' := List.nodup_cons.mp hnd
      by_cases hk : k₀ = k
      · subst hk
        have hv : v₀ = v := by simpa [Payload.get] using h
        subst hv
        have htl : Payload.get tl k₀ = none :=
          Payload.get_eq_none_of_not_mem_keys tl k₀ hnd'.1
        rw [hstep, Payload.get_updateAll_of_get_none tl _ k₀ htl,
          Payload.get_setKey_self]
      · have htl : Payload.get tl k = some v := by
          simpa [Payload.get, hk] using h
        rw [hstep, ih _ hnd'.2 htl]

/-! ## Helper lemmas about `combine_data_and_view_args` -/

theorem get_combine_of_viewargs (data va : Payload) (sch : SchemaDescriptor)
    (k : String) (v : RawValue) (hnd : (Payload.keys va).Nodup)
    (h : Payload.get va k = some v) :
    Payload.get (combine_data_and_view_args data (some va) sch) k = some v := by
  unfold combine_data_and_view_args
  by_cases hd : data = []
  · simp [hd, h]
  · simp [hd, Payload.get_updateAll_of_get va data k v hnd h]

theorem get_combine_of_viewargs_none (data va : Payload)
    (sch : SchemaDescriptor) (k : String) (h : Payload.get va k = none) :
    Payload.get (combine_data_and_view_args data (some va) sch) k
      = Payload.get data k := by
  unfold combine_data_and_view_args
  by_cases hd : data = []
  · simp [hd, h, Payload.get]
  · simp [hd, Payload.get_updateAll_of_get_none va data k h]

theorem combine_missing_viewargs (data : Payload) (sch : SchemaDescriptor) :
    combine_data_and_view_args data none sch = data := rfl

theorem use_kwargs_factory_trace {σ α : Type} (factory : RestAPI → σ)
    (dep : σ → EthereumManager) (fields : σ → SchemaDescriptor)
    (loader : RawRequest → SchemaDescriptor → Option Payload)
    (handler : List (String × TypedValue) → α) (api : RestAPI) (r : RawRequest) :
    (use_kwargs_with_factory factory dep fields loader handler api r).1.filter
        isFactoryInvocation = [.factoryInvoked (dep (factory api))]
      ∧ (use_kwargs_with_factory factory dep fields loader handler api r).1.take 2
        = [.factoryInvoked (dep (factory api)), .loaderRan] := by
  unfold use_kwargs_with_factory
  dsimp only
  split <;> simp [isFactoryInvocation]

/-! ## Claim theorems -/

/-- C10: for every data mapping and schema, when the view_args source is
missing, `_combine_data_and_view_args` returns the data mapping unchanged —
no key is added, removed or overwritten — and consequently the
`json_and_view_args` loader returns the body data unchanged. -/
theorem C10_combine_viewargs_missing_identity (data : Payload)
    (sch : SchemaDescriptor) (q : Option Payload) :
    combine_data_and_view_args data none sch = data
      ∧ load_json_viewargs_data ⟨some data, q, none⟩ sch = some data :=
  ⟨rfl, rfl⟩

/-- C9: for the `json_and_view_args` and `json_and_query_and_view_args`
loaders, when the body/query data is present but equal to the empty mapping
and path view_args are present, the loader's result is exactly the view_args
mapping. -/
theorem C9_empty_data_replaced_by_viewargs (va q : Payload)
    (qo : Option Payload) (sch : SchemaDescriptor) :
    load_json_viewargs_data ⟨some [], qo, some va⟩ sch = some va
      ∧ load_json_query_viewargs_data ⟨some [], some q, some va⟩ sch = some va
      ∧ load_json_query_viewargs_data ⟨none, some [], some va⟩ sch = some va :=
  ⟨rfl, rfl, rfl⟩

/-- C3: evaluation of `load_json_viewargs_data` at the failing input — a
request whose JSON body is Absent while the path has bound segments.  The
loader returns the missing sentinel, discarding the path mapping, instead of
the path-segment mapping the claim (and spec §4.2's edge case) requires. -/
theorem C3_absent_body_discards_viewargs :
    load_json_viewargs_data absentBodyPathRequest [] = none
      ∧ absentBodyPathRequest.view_args
        = some [("blockchain", RawValue.str "ETH")] :=
  ⟨rfl, rfl⟩

/-- C6: loading, merging and validating are deterministic and side-effect
free over their inputs — running any loader variant followed by validation
twice on the same RawRequest yields identical results, the second equal to
the first. -/
theorem C6_pipeline_deterministic (sch : SchemaDescriptor) (r : RawRequest) :
    validate sch ((load_json_viewargs_data r sch).getD [])
        = validate sch ((load_json_viewargs_data r sch).getD [])
      ∧ validate sch ((load_json_query_data r sch).getD [])
        = validate sch ((load_json_query_data r sch).getD [])
      ∧ validate sch ((load_json_query_viewargs_data r sch).getD [])
        = validate sch ((load_json_query_viewargs_data r sch).getD []) :=
  ⟨rfl, rfl, rfl⟩

/-- C1 counterexample: a `json_and_query` request in which field "a" is
present in both the body (value 1) and the query (value 2).  The claimed
query > body precedence requires the merged payload to map "a" to 2, but it
maps "a" to the body's value 1. -/
theorem C1_counterexample_body_beats_query :
    loadedGet (load_json_query_data overlapBodyQueryRequest []) "a"
        = some (RawValue.int 1)
      ∧ loadedGet (load_json_query_data overlapBodyQueryRequest []) "a"
        ≠ some (RawValue.int 2) :=
  ⟨rfl, by decide⟩

/-- C1 (amended): precedence on overlapping fields — the path overrides both
the body and the query in every variant that reads the path; between body and
query, a non-Absent body shadows the query entirely, so an overlapping field
resolves to the body's value (the query is read only when the body is Absent,
in which case no body/query overlap exists). -/
theorem C1_amended_overlap_precedence (sch : SchemaDescriptor)
    (d va q : Payload) (qo : Option Payload) (k : String) (v w : RawValue)
    (hnd : (Payload.keys va).Nodup)
    (hva : Payload.get va k = some v)
    (hd : Payload.get d k = some w) :
    loadedGet (load_json_viewargs_data ⟨some d, qo, some va⟩ sch) k = some v
      ∧ loadedGet (load_json_query_viewargs_data ⟨some d, some q, some va⟩ sch) k
        = some v
      ∧ loadedGet (load_json_query_viewargs_data ⟨none, some d, some va⟩ sch) k
        = some v
      ∧ loadedGet (load_json_query_data ⟨some d, some q, none⟩ sch) k = some w :=
  ⟨get_combine_of_viewargs d va sch k v hnd hva,
   get_combine_of_viewargs d va sch k v hnd hva,
   get_combine_of_viewargs d va sch k v hnd hva,
   hd⟩

/-- C1 amended witness: at a concrete request, the path value 9 for "a" beats
the body value 1 in the path-reading variants, and the body value 1 beats the
query value 2 in the body+query variant. -/
theorem C1_amended_overlap_precedence_witness :
    loadedGet (load_json_viewargs_data
        ⟨some [("a", RawValue.int 1)], none, some [("a", RawValue.int 9)]⟩ []) "a"
        = some (RawValue.int 9)
      ∧ loadedGet (load_json_query_viewargs_data
          ⟨some [("a", RawValue.int 1)], some [("a", RawValue.int 2)],
            some [("a", RawValue.int 9)]⟩ []) "a" = some (RawValue.int 9)
      ∧ loadedGet (load_json_query_viewargs_data
          ⟨none, some [("a", RawValue.int 1)], some [("a", RawValue.int 9)]⟩ []) "a"
        = some (RawValue.int 9)
      ∧ loadedGet (load_json_query_data
          ⟨some [("a", RawValue.int 1)], some [("a", RawValue.int 2)], none⟩ []) "a"
        = some (RawValue.int 1) :=
  C1_amended_overlap_precedence [] [("a", RawValue.int 1)]
    [("a", RawValue.int 9)] [("a", RawValue.int 2)] none "a"
    (RawValue.int 9) (RawValue.int 1) (by decide) (by decide) (by decide)

/-- C2 counterexample: a body+query+path request with pairwise-disjoint
non-empty field sets {a}, {b}, {c} in body, query and path.  The claimed
union {a, b, c} fails: the merged payload is {a, c} and the query-supplied
field "b" is absent, because the loader never reads the query when the body
is non-Absent. -/
theorem C2_counterexample_query_field_dropped :
    load_json_query_viewargs_data disjointThreeSourceRequest []
        = some [("a", RawValue.int 1), ("c", RawValue.int 3)]
      ∧ loadedGet (load_json_query_viewargs_data disjointThreeSourceRequest []) "b"
        = none :=
  ⟨rfl, rfl⟩

/-- C2 (amended): the union property holds between the sources the loader
actually reads — with a non-Absent body the merged payload of the
body+query+path loader is exactly the union of body and path fields, each
mapped to its source's value, and the query contributes nothing; with an
Absent body it is exactly the union of query and path fields. -/
theorem C2_amended_union_of_read_sources (sch : SchemaDescriptor)
    (d q va : Payload) (hnd : (Payload.keys va).Nodup) :
    (∀ k v, Payload.get d k = some v → Payload.get va k = none →
        loadedGet (load_json_query_viewargs_data ⟨some d, some q, some va⟩ sch) k
          = some v)
      ∧ (∀ k v, Payload.get va k = some v →
          loadedGet (load_json_query_viewargs_data ⟨some d, some q, some va⟩ sch) k
            = some v)
      ∧ (∀ k, Payload.get d k = none → Payload.get va k = none →
          loadedGet (load_json_query_viewargs_data ⟨some d, some q, some va⟩ sch) k
            = none)
      ∧ (∀ k v, Payload.get q k = some v → Payload.get va k = none →
          loadedGet (load_json_query_viewargs_data ⟨none, some q, some va⟩ sch) k
            = some v)
      ∧ (∀ k, Payload.get q k = none → Payload.get va k = none →
          loadedGet (load_json_query_viewargs_data ⟨none, some q, some va⟩ sch) k
            = none) := by
  refine ⟨?_, ?_, ?_, ?_, ?_⟩
  · intro k v hdk hvk
    show Payload.get (combine_data_and_view_args d (some va) sch) k = some v
    rw [get_combine_of_viewargs_none d va sch k hvk]
    exact hdk
  · intro k v hvk
    exact get_combine_of_viewargs d va sch k v hnd hvk
  · intro k hdk hvk
    show Payload.get (combine_data_and_view_args d (some va) sch) k = none
    rw [get_combine_of_viewargs_none d va sch k hvk]
    exact hdk
  · intro k v hqk hvk
    show Payload.get (combine_data_and_view_args q (some va) sch) k = some v
    rw [get_combine_of_viewargs_none q va sch k hvk]
    exact hqk
  · intro k hqk hvk
    show Payload.get (combine_data_and_view_args q (some va) sch) k = none
    rw [get_combine_of_viewargs_none q va sch k hvk]
    exact hqk

/-- C2 amended witness: with body {a: 1}, query {b: 2}, path {c: 3}, the
three-source merged payload maps "a" to 1 and "c" to 3, omits "z", and with
an Absent body maps "b" to 2. -/
theorem C2_amended_union_of_read_sources_witness :
    loadedGet (load_json_query_viewargs_data
        ⟨some [("a", RawValue.int 1)], some [("b", RawValue.int 2)],
          some [("c", RawValue.int 3)]⟩ []) "a" = some (RawValue.int 1)
      ∧ loadedGet (load_json_query_viewargs_data
          ⟨some [("a", RawValue.int 1)], some [("b", RawValue.int 2)],
            some [("c", RawValue.int 3)]⟩ []) "c" = some (RawValue.int 3)
      ∧ loadedGet (load_json_query_viewargs_data
          ⟨some [("a", RawValue.int 1)], some [("b", RawValue.int 2)],
            some [("c", RawValue.int 3)]⟩ []) "z" = none
      ∧ loadedGet (load_json_query_viewargs_data
          ⟨none, some [("b", RawValue.int 2)], some [("c", RawValue.int 3)]⟩ []) "b"
        = some (RawValue.int 2) := by
  have h := C2_amended_union_of_read_sources [] [("a", RawValue.int 1)]
    [("b", RawValue.int 2)] [("c", RawValue.int 3)] (by decide)
  exact ⟨h.1 "a" (RawValue.int 1) (by decide) (by decide),
    h.2.1 "c" (RawValue.int 3) (by decide),
    h.2.2.1 "z" (by decide) (by decide),
    h.2.2.2.1 "b" (RawValue.int 2) (by decide) (by decide)⟩

/-- C5: for the `json_and_query` and `json_and_query_and_view_args` loaders,
whenever the JSON body yields a non-Absent mapping the query string
contributes nothing: the two-source result is exactly the body mapping, and a
field absent from both the body and the path does not appear in the
three-source result even when the query supplies it. -/
theorem C5_body_present_query_ignored (sch : SchemaDescriptor) (d : Payload)
    (qo vo : Option Payload) (k : String)
    (hd : Payload.get d k = none)
    (hv : Payload.get (vo.getD []) k = none) :
    load_json_query_data ⟨some d, qo, vo⟩ sch = some d
      ∧ loadedGet (load_json_query_viewargs_data ⟨some d, qo, vo⟩ sch) k = none := by
  refine ⟨rfl, ?_⟩
  cases vo with
  | none =>
      show Payload.get (combine_data_and_view_args d none sch) k = none
      rw [combine_missing_viewargs]
      exact hd
  | some va =>
      have hva : Payload.get va k = none := hv
      show Payload.get (combine_data_and_view_args d (some va) sch) k = none
      rw [get_combine_of_viewargs_none d va sch k hva]
      exact hd

/-- C5 witness: with body {a: 1} present and query {b: 2}, the two-source
loader returns exactly the body and the query-only field "b" is absent from
the three-source result. -/
theorem C5_body_present_query_ignored_witness :
    load_json_query_data
        ⟨some [("a", RawValue.int 1)], some [("b", RawValue.int 2)], none⟩ []
        = some [("a", RawValue.int 1)]
      ∧ loadedGet (load_json_query_viewargs_data
          ⟨some [("a", RawValue.int 1)], some [("b", RawValue.int 2)], none⟩ []) "b"
        = none :=
  C5_body_present_query_ignored [] [("a", RawValue.int 1)]
    (some [("b", RawValue.int 2)]) none "b" (by decide) (by decide)

/-- C4 counterexample: the claim's concrete scenario uses body `{}` — a
present empty JSON object, not the missing sentinel — so the
`json_and_query` loader returns the empty body and ignores the query string
entirely; validation then fails on the three required fields instead of
producing the claimed ValidatedArguments. -/
theorem C4_counterexample_empty_object_body :
    load_json_query_data emptyObjectBodyRequest timerangeLocationSchema
        = some []
      ∧ validate timerangeLocationSchema
          ((load_json_query_data emptyObjectBodyRequest
            timerangeLocationSchema).getD [])
        = .error ⟨["from_timestamp", "to_timestamp", "location"]⟩
      ∧ validate timerangeLocationSchema
          ((load_json_query_data emptyObjectBodyRequest
            timerangeLocationSchema).getD [])
        ≠ .ok [("from_timestamp", TypedValue.int 0),
               ("to_timestamp", TypedValue.int 100),
               ("location", TypedValue.enum "BINANCE"),
               ("async_query", TypedValue.bool false)] := by
  refine ⟨rfl, rfl, ?_⟩
  intro h
  rw [show validate timerangeLocationSchema
      ((load_json_query_data emptyObjectBodyRequest
        timerangeLocationSchema).getD [])
      = .error ⟨["from_timestamp", "to_timestamp", "location"]⟩ from rfl] at h
  exact Except.noConfusion h

/-- C4 (amended): the query-alone behaviour of a body+query endpoint requires
an Absent body (no JSON body), not a present empty object: with an Absent
body the loader returns exactly the query-string mapping, validating it is
the same as validating the query mapping alone, and the concrete scenario
(query `from_timestamp=0&to_timestamp=100&location=binance` against the
required-int/int/enum plus defaulted-bool schema) yields ValidatedArguments
{from_timestamp: 0, to_timestamp: 100, location: BINANCE, async_query:
false}. -/
theorem C4_amended_absent_body_query_alone (sch : SchemaDescriptor)
    (qo vo : Option Payload) :
    load_json_query_data ⟨none, qo, vo⟩ sch = qo
      ∧ validate sch ((load_json_query_data ⟨none, qo, vo⟩ sch).getD [])
        = validate sch (qo.getD [])
      ∧ validate timerangeLocationSchema
          ((load_json_query_data ⟨none, some timerangeQuery, none⟩
            timerangeLocationSchema).getD [])
        = .ok [("from_timestamp", TypedValue.int 0),
               ("to_timestamp", TypedValue.int 100),
               ("location", TypedValue.enum "BINANCE"),
               ("async_query", TypedValue.bool false)] :=
  ⟨rfl, rfl, by decide⟩

/-- C8: for every request in which a field declared required by the endpoint's
schema is present in none of the merged sources, validation fails with a
ValidationError that names that field, and the handler is not invoked — the
dispatch result is the error, never a handler value. -/
theorem C8_required_field_missing_rejected {α : Type}
    (loader : RawRequest → SchemaDescriptor → Option Payload)
    (sch : SchemaDescriptor) (handler : List (String × TypedValue) → α)
    (r : RawRequest) (f : FieldSpec) (hf : f ∈ sch) (hreq : f.required = true)
    (hmiss : Payload.get ((loader r sch).getD []) f.name = none) :
    ∃ e : ValidationError, runEndpoint loader sch handler r = .error e
      ∧ f.name ∈ e.fields := by
  have hcf : checkField ((loader r sch).getD []) f = .error f.name := by
    unfold checkField
    rw [hmiss, hreq]
    simp
  have hmem : (Except.error f.name :
      Except String (Option (String × TypedValue)))
      ∈ sch.map (checkField ((loader r sch).getD [])) := by
    have h₁ := List.mem_map_of_mem (checkField ((loader r sch).getD [])) hf
    rw [hcf] at h₁
    exact h₁
  have hname : f.name
      ∈ (sch.map (checkField ((loader r sch).getD []))).filterMap errOf :=
    List.mem_filterMap.mpr ⟨Except.error f.name, hmem, rfl⟩
  have herrs : f.name ∈ validationErrors sch ((loader r sch).getD []) :=
    List.mem_append_right _ hname
  cases hl : validationErrors sch ((loader r sch).getD []) with
  | nil =>
      rw [hl] at herrs
      exact absurd herrs (List.not_mem_nil _)
  | cons e es =>
      refine ⟨⟨e :: es⟩, ?_, ?_⟩
      · unfold runEndpoint validate
        rw [hl]
        rfl
      · rw [hl] at herrs
        exact herrs

/-- C8 witness: a request supplying no source at all against the schema that
requires from_timestamp is rejected with an error naming "from_timestamp",
and the handler (here constantly 0) is not invoked. -/
theorem C8_required_field_missing_rejected_witness :
    ∃ e : ValidationError,
      runEndpoint load_json_query_data timerangeLocationSchema
          (fun _ => (0 : Nat)) ⟨none, none, none⟩ = .error e
        ∧ "from_timestamp" ∈ e.fields :=
  C8_required_field_missing_rejected load_json_query_data
    timerangeLocationSchema (fun _ => (0 : Nat)) ⟨none, none, none⟩
    ⟨"from_timestamp", .intType, true, none⟩ (by decide) rfl (by decide)

/-- C7: every put, patch or delete dispatch of the blockchain-accounts
resource invokes its schema factory exactly once during that dispatch, before
the composite loader runs, and the schema is built from the chain manager's
ethereum connector of the rest_api state at the time of the request — the
dependency tracks the live state for every `api`, not a value frozen at
process start. -/
theorem C7_blockchain_accounts_schema_factory_per_request {α : Type}
    (fput : BlockchainAccountsPutSchema → SchemaDescriptor)
    (fpatch : BlockchainAccountsPatchSchema → SchemaDescriptor)
    (fdel : BlockchainAccountsDeleteSchema → SchemaDescriptor)
    (handler : List (String × TypedValue) → α) (api : RestAPI)
    (r : RawRequest) :
    ((blockchain_accounts_put_dispatch fput handler api r).1.filter
          isFactoryInvocation
        = [.factoryInvoked api.rotkehlchen.chain_manager.ethereum]
      ∧ (blockchain_accounts_put_dispatch fput handler api r).1.take 2
        = [.factoryInvoked api.rotkehlchen.chain_manager.ethereum, .loaderRan])
    ∧ ((blockchain_accounts_patch_dispatch fpatch handler api r).1.filter
          isFactoryInvocation
        = [.factoryInvoked api.rotkehlchen.chain_manager.ethereum]
      ∧ (blockchain_accounts_patch_dispatch fpatch handler api r).1.take 2
        = [.factoryInvoked api.rotkehlchen.chain_manager.ethereum, .loaderRan])
    ∧ ((blockchain_accounts_delete_dispatch fdel handler api r).1.filter
          isFactoryInvocation
        = [.factoryInvoked api.rotkehlchen.chain_manager.ethereum]
      ∧ (blockchain_accounts_delete_dispatch fdel handler api r).1.take 2
        = [.factoryInvoked api.rotkehlchen.chain_manager.ethereum, .loaderRan]) :=
  ⟨use_kwargs_factory_trace make_put_schema (fun s => s.ethereum) fput
      load_json_viewargs_data handler api r,
   use_kwargs_factory_trace make_patch_schema (fun s => s.ethereum) fpatch
      load_json_viewargs_data handler api r,
   use_kwargs_factory_trace make_delete_schema (fun s => s.ethereum) fdel
      load_json_viewargs_data handler api r⟩

end Rotki
